import Mathlib

/-!
Verification of the Portfolio Risk & Rebalancing Engine
(src/src/portfolio/manager.py, risk_manager.py, rebalancer.py).

In the repository the dataclasses and the constructors (`__init__`) carry
real code, while every other method body is the stub `pass`.  The
dataclasses and constructors below are embedded directly from that source.
Each behavioural operation is modelled from the specification (spec.md),
and its doc comment says so explicitly; money and prices are rationals,
dates are day numbers (Python `datetime` / `timedelta(days=n)`), and
Python dictionaries are association lists over `String` keys.
-/

namespace GPTComparison

/-- Association-list lookup, modelling Python `dict` access on `String` keys. -/
def alookup {α : Type} : List (String × α) → String → Option α
  | [], _ => none
  | (k, v) :: rest, key => if k = key then some v else alookup rest key

/-- Association-list update: replace the value at an existing key, or append
a fresh binding, modelling Python `d[key] = v`. -/
def aupdate {α : Type} : List (String × α) → String → α → List (String × α)
  | [], key, v => [(key, v)]
  | (k, w) :: rest, key, v =>
      if k = key then (k, v) :: rest else (k, w) :: aupdate rest key v

/-- Association-list removal of a key, modelling Python `del d[key]`. -/
def aerase {α : Type} : List (String × α) → String → List (String × α)
  | [], _ => []
  | (k, w) :: rest, key => if k = key then rest else (k, w) :: aerase rest key

/-- Lookup with a default value, modelling Python `d.get(key, default)`. -/
def agetD {α : Type} (l : List (String × α)) (key : String) (d : α) : α :=
  (alookup l key).getD d

theorem mem_aupdate {α : Type} {l : List (String × α)} {key : String} {v : α}
    {x : String × α} (hx : x ∈ aupdate l key v) : x = (key, v) ∨ x ∈ l := by
  induction l with
  | nil =>
      simp [aupdate] at hx
      exact Or.inl hx
  | cons hd tl ih =>
      rcases hd with ⟨k, w⟩
      rw [aupdate] at hx
      by_cases hk : k = key
      · rw [if_pos hk] at hx
        rcases List.mem_cons.mp hx with h | h
        · subst hk
          exact Or.inl h
        · exact Or.inr (List.mem_cons_of_mem _ h)
      · rw [if_neg hk] at hx
        rcases List.mem_cons.mp hx with h | h
        · exact Or.inr (by simp [h])
        · rcases ih h with h' | h'
          · exact Or.inl h'
          · exact Or.inr (List.mem_cons_of_mem _ h')

theorem mem_aerase {α : Type} {l : List (String × α)} {key : String}
    {x : String × α} (hx : x ∈ aerase l key) : x ∈ l := by
  induction l with
  | nil => simp [aerase] at hx
  | cons hd tl ih =>
      rcases hd with ⟨k, w⟩
      rw [aerase] at hx
      by_cases hk : k = key
      · rw [if_pos hk] at hx
        exact List.mem_cons_of_mem _ hx
      · rw [if_neg hk] at hx
        rcases List.mem_cons.mp hx with h | h
        · simp [h]
        · exact List.mem_cons_of_mem _ (ih h)

/-- `Position` dataclass, embedded from `src/src/portfolio/manager.py`
lines 21-51.  `datetime` fields are day numbers. -/
structure Position where
  ticker : String
  quantity : Int
  entry_price : ℚ
  entry_date : Nat
  current_price : ℚ
  market_value : ℚ
  unrealized_pnl : ℚ
  stop_loss : Option ℚ := none
  profit_target : Option ℚ := none
  strategy_name : String := ""
  max_holding_period : Option Nat := none
  re_evaluation_date : Option Nat := none
deriving Repr, DecidableEq

/-- `PortfolioSnapshot` dataclass, embedded from
`src/src/portfolio/manager.py` lines 54-74. -/
structure PortfolioSnapshot where
  timestamp : Nat
  total_value : ℚ
  cash : ℚ
  positions : List (String × Position)
  daily_pnl : ℚ
  total_pnl : ℚ
  strategy_allocations : List (String × ℚ)
deriving Repr, DecidableEq

/-- `TradingRecommendation` dataclass, embedded from
`src/src/strategies/base.py` lines 23-47. -/
structure TradingRecommendation where
  ticker : String
  action : String
  quantity : Int
  confidence : ℚ
  stop_loss_condition : String := ""
  profit_taking_condition : String := ""
  max_holding_period : Nat := 0
  re_evaluation_date : Nat := 0
  reasoning : Option String := none
deriving Repr, DecidableEq

/-- One executed trade, modelling the `Dict[str, Any]` trade records that
`execute_recommendations` appends to `trade_history`. -/
structure Trade where
  ticker : String
  action : String
  quantity : Int
  price : ℚ
  strategy_name : String
deriving Repr, DecidableEq

/-- Order-level errors of the spec's error taxonomy (spec.md section 7). -/
inductive TradeError where
  | insufficientCapital
  | noSuchPosition
  | positionLimitExceeded
  | dataUnavailable
deriving Repr, DecidableEq

/-- Outcome of processing one recommendation inside
`execute_recommendations`: an executed trade, a dropped order with its
order-level error, or a skipped non-trade action (HOLD). -/
inductive TradeResult where
  | executed (t : Trade)
  | failed (ticker : String) (e : TradeError)
  | skipped (ticker : String)
deriving Repr, DecidableEq

/-- `PortfolioManager` state, embedded from `src/src/portfolio/manager.py`
lines 85-113: the constructor-initialised attributes.
`rebalance_frequency` is `timedelta(days=7)`, kept as a day count. -/
structure PortfolioManager where
  initial_capital : ℚ
  current_cash : ℚ
  max_positions_per_strategy : Nat
  max_total_positions : Nat
  cash_reserve : ℚ
  positions : List (String × Position)
  strategy_allocations : List (String × ℚ)
  trade_history : List Trade
  performance_history : List PortfolioSnapshot
  last_rebalance_date : Option Nat
  rebalance_frequency : Nat
deriving Repr, DecidableEq

/-- `PortfolioManager.__init__`, embedded from
`src/src/portfolio/manager.py` lines 85-113, default arguments included. -/
def PortfolioManager.init (initial_capital : ℚ := 100000)
    (max_positions_per_strategy : Nat := 15) (max_total_positions : Nat := 50)
    (cash_reserve : ℚ := 5 / 100) : PortfolioManager where
  initial_capital := initial_capital
  current_cash := initial_capital
  max_positions_per_strategy := max_positions_per_strategy
  max_total_positions := max_total_positions
  cash_reserve := cash_reserve
  positions := []
  strategy_allocations := []
  trade_history := []
  performance_history := []
  last_rebalance_date := none
  rebalance_frequency := 7

/-- `RiskAlert` dataclass, embedded from
`src/src/portfolio/risk_manager.py` lines 22-42. -/
structure RiskAlert where
  alert_type : String
  severity : String
  message : String
  ticker : Option String := none
  strategy_name : Option String := none
  recommended_action : Option String := none
  timestamp : Option Nat := none
deriving Repr, DecidableEq

/-- `RiskManager` state, embedded from `src/src/portfolio/risk_manager.py`
lines 78-104: the constructor-initialised attributes. -/
structure RiskManager where
  max_portfolio_var : ℚ
  max_position_size : ℚ
  max_sector_exposure : ℚ
  max_correlation : ℚ
  stop_loss_buffer : ℚ
  risk_alerts : List RiskAlert
  position_correlations : List ((String × String) × ℚ)
  sector_exposures : List (String × ℚ)
deriving Repr, DecidableEq

/-- `RiskManager.__init__`, embedded from
`src/src/portfolio/risk_manager.py` lines 78-104, default arguments
included. -/
def RiskManager.init (max_portfolio_var : ℚ := 2 / 100)
    (max_position_size : ℚ := 10 / 100) (max_sector_exposure : ℚ := 25 / 100)
    (max_correlation : ℚ := 7 / 10) (stop_loss_buffer : ℚ := 1 / 100) :
    RiskManager where
  max_portfolio_var := max_portfolio_var
  max_position_size := max_position_size
  max_sector_exposure := max_sector_exposure
  max_correlation := max_correlation
  stop_loss_buffer := stop_loss_buffer
  risk_alerts := []
  position_correlations := []
  sector_exposures := []

/-- Modelled from the spec: the body of
`RiskManager.should_trigger_stop_loss` (src/src/portfolio/risk_manager.py
lines 228-243) is the stub `pass`; spec.md section 4.2 defines it as the
boolean `price <= position.stop_loss` for long positions.  A position with
no stop-loss price set has nothing to trigger. -/
def RiskManager.should_trigger_stop_loss (_rm : RiskManager) (p : Position)
    (current_price : ℚ) : Bool :=
  match p.stop_loss with
  | none => false
  | some sl => decide (current_price ≤ sl)

/-- `PortfolioRebalancer` state.  The constructor attributes are embedded
from `src/src/portfolio/rebalancer.py` lines 31-56; the two allocation
snapshots are modelled from the spec (section 4.3), which computes drift
from the current and the last-rebalanced strategy allocations held behind
the `portfolio_manager` reference and the rebalance history. -/
structure PortfolioRebalancer where
  rebalance_day : Nat
  min_rebalance_threshold : ℚ
  transaction_cost : ℚ
  last_rebalance_date : Option Nat
  current_allocations : List (String × ℚ)
  last_rebalanced_allocations : List (String × ℚ)
deriving Repr, DecidableEq

/-- `PortfolioRebalancer.__init__` constants, embedded from
`src/src/portfolio/rebalancer.py` lines 31-56: rebalance day Friday (4),
5% minimum rebalance threshold, 0.1% transaction cost, no last rebalance
date. -/
def PortfolioRebalancer.init (rebalance_day : Nat := 4)
    (min_rebalance_threshold : ℚ := 5 / 100)
    (transaction_cost : ℚ := 1 / 1000) : PortfolioRebalancer where
  rebalance_day := rebalance_day
  min_rebalance_threshold := min_rebalance_threshold
  transaction_cost := transaction_cost
  last_rebalance_date := none
  current_allocations := []
  last_rebalanced_allocations := []

/-- Sum of the market values of a position map. -/
def totalMarketValue (ps : List (String × Position)) : ℚ :=
  (ps.map (fun kv => kv.2.market_value)).sum

/-- Total portfolio value: cash plus the sum of position market values
(spec.md section 3, `PortfolioSnapshot.total_value`). -/
def PortfolioManager.total_value (pm : PortfolioManager) : ℚ :=
  pm.current_cash + totalMarketValue pm.positions

/-- Modelled from the spec: the cash a trade may spend, "cash reserve
fraction must remain unspent" (spec.md section 4.1) — current cash minus
the reserve fraction of total portfolio value. -/
def PortfolioManager.available_cash (pm : PortfolioManager) : ℚ :=
  pm.current_cash - pm.cash_reserve * pm.total_value

/-- Shares currently held in a ticker (0 when no position exists). -/
def PortfolioManager.heldQuantity (pm : PortfolioManager)
    (ticker : String) : Int :=
  match alookup pm.positions ticker with
  | none => 0
  | some p => p.quantity

/-- Number of open positions owned by one strategy. -/
def PortfolioManager.strategyPositionCount (pm : PortfolioManager)
    (strategy : String) : Nat :=
  (pm.positions.filter (fun kv => kv.2.strategy_name = strategy)).length

/-- Modelled from the spec: the body of `PortfolioManager._validate_trade`
(src/src/portfolio/manager.py lines 369-388) is the stub `pass`; spec.md
sections 4.1 and 7 define the order-level checks: a BUY fails with
`InsufficientCapital` when `quantity*price + est. cost > available cash`
(the estimated cost is the transaction-cost fraction `tc` of the trade
value, spec.md section 4.3), otherwise with `PositionLimitExceeded` when
opening a fresh position would exceed `max_positions_per_strategy` or
`max_total_positions`; a SELL fails with `NoSuchPosition` when the
quantity exceeds the shares held. -/
def PortfolioManager._validate_trade (pm : PortfolioManager)
    (strategy ticker : String) (quantity : Int) (price tc : ℚ)
    (action : String) : Option TradeError :=
  if action = "BUY" then
    let cost := (quantity : ℚ) * price
    if pm.available_cash < cost + tc * cost then
      some TradeError.insufficientCapital
    else if (alookup pm.positions ticker).isNone ∧
        (pm.max_positions_per_strategy ≤ pm.strategyPositionCount strategy ∨
          pm.max_total_positions ≤ pm.positions.length) then
      some TradeError.positionLimitExceeded
    else none
  else if action = "SELL" then
    if pm.heldQuantity ticker < quantity then some TradeError.noSuchPosition
    else none
  else none

/-- Recompute the derived fields of a position at a new price
(spec.md section 4.1, `update_positions`). -/
def refreshPosition (p : Position) (price : ℚ) : Position :=
  { p with current_price := price,
           market_value := (p.quantity : ℚ) * price,
           unrealized_pnl := (price - p.entry_price) * (p.quantity : ℚ) }

/-- Modelled from the spec: the body of
`PortfolioManager._update_position` (src/src/portfolio/manager.py lines
351-367) is the stub `pass`; spec.md sections 3 and 4.1 define it: a new
ticker opens a position at the trade price, a fractional increase
recomputes the entry price as the volume-weighted average of the old and
new lots, a full sell removes the position entity, and the derived fields
always satisfy `market_value = quantity * current_price` and
`unrealized_pnl = (current_price - entry_price) * quantity`. -/
def updatePositionList (ps : List (String × Position)) (ticker : String)
    (quantity_change : Int) (price : ℚ) (strategy_name : String) :
    List (String × Position) :=
  match alookup ps ticker with
  | none =>
      let newPos : Position :=
        { ticker := ticker, quantity := quantity_change, entry_price := price,
          entry_date := 0, current_price := price,
          market_value := (quantity_change : ℚ) * price,
          unrealized_pnl := (price - price) * (quantity_change : ℚ),
          strategy_name := strategy_name }
      aupdate ps ticker newPos
  | some p =>
      let q := p.quantity + quantity_change
      if q = 0 then aerase ps ticker
      else if 0 < quantity_change then
        let entry :=
          ((p.quantity : ℚ) * p.entry_price + (quantity_change : ℚ) * price) /
            (q : ℚ)
        let upd : Position :=
          { p with quantity := q, entry_price := entry,
                   current_price := price,
                   market_value := (q : ℚ) * price,
                   unrealized_pnl := (price - entry) * (q : ℚ) }
        aupdate ps ticker upd
      else
        let upd : Position :=
          { p with quantity := q, current_price := price,
                   market_value := (q : ℚ) * price,
                   unrealized_pnl := (price - p.entry_price) * (q : ℚ) }
        aupdate ps ticker upd

/-- The ledger mutation of `_update_position`, applied to the manager. -/
def PortfolioManager._update_position (pm : PortfolioManager)
    (ticker : String) (quantity_change : Int) (price : ℚ)
    (strategy_name : String) : PortfolioManager :=
  { pm with positions :=
      (updatePositionList pm.positions ticker quantity_change price
        strategy_name) }

/-- Modelled from the spec: the body of
`PortfolioManager._execute_buy_order` (src/src/portfolio/manager.py lines
307-328) is the stub `pass`; spec.md sections 4.1 and 8 define it as the
atomic ledger-and-cash update: the position is updated through the ledger
and cash decreases by the trade value plus the transaction cost. -/
def PortfolioManager._execute_buy_order (pm : PortfolioManager)
    (ticker : String) (quantity : Int) (price tc : ℚ)
    (strategy_name : String) : PortfolioManager × Trade :=
  let cost := (quantity : ℚ) * price
  let t : Trade := { ticker := ticker, action := "BUY", quantity := quantity,
                     price := price, strategy_name := strategy_name }
  let pm1 := pm._update_position ticker quantity price strategy_name
  ({ pm1 with current_cash := pm1.current_cash - cost - tc * cost,
              trade_history := pm1.trade_history ++ [t] }, t)

/-- Modelled from the spec: the body of
`PortfolioManager._execute_sell_order` (src/src/portfolio/manager.py lines
330-349) is the stub `pass`; spec.md sections 4.1 and 8 define it: the
position shrinks (a full sell removes it) and cash increases by the trade
value minus the transaction cost. -/
def PortfolioManager._execute_sell_order (pm : PortfolioManager)
    (ticker : String) (quantity : Int) (price tc : ℚ)
    (strategy_name : String) : PortfolioManager × Trade :=
  let value := (quantity : ℚ) * price
  let t : Trade := { ticker := ticker, action := "SELL", quantity := quantity,
                     price := price, strategy_name := strategy_name }
  let pm1 := pm._update_position ticker (-quantity) price strategy_name
  ({ pm1 with current_cash := pm1.current_cash + value - tc * value,
              trade_history := pm1.trade_history ++ [t] }, t)

/-- Modelled from the spec: processing of one recommendation inside
`execute_recommendations` (src/src/portfolio/manager.py lines 125-142,
body `pass`); spec.md sections 4.1 and 7: only BUY/SELL actions trade, a
ticker with no quoted price is excluded (`DataUnavailable`), a failed
validation drops that single order leaving the ledger unchanged, and a
validated order executes atomically. -/
def PortfolioManager.execStep (pm : PortfolioManager) (strategy : String)
    (tc : ℚ) (prices : List (String × ℚ)) (rec : TradingRecommendation) :
    PortfolioManager × TradeResult :=
  if rec.action = "BUY" ∨ rec.action = "SELL" then
    match alookup prices rec.ticker with
    | none => (pm, TradeResult.failed rec.ticker TradeError.dataUnavailable)
    | some price =>
        match pm._validate_trade strategy rec.ticker rec.quantity price tc
            rec.action with
        | some e => (pm, TradeResult.failed rec.ticker e)
        | none =>
            if rec.action = "BUY" then
              let r := pm._execute_buy_order rec.ticker rec.quantity price tc
                strategy
              (r.1, TradeResult.executed r.2)
            else
              let r := pm._execute_sell_order rec.ticker rec.quantity price tc
                strategy
              (r.1, TradeResult.executed r.2)
  else (pm, TradeResult.skipped rec.ticker)

/-- Modelled from the spec: the body of
`PortfolioManager.execute_recommendations` (src/src/portfolio/manager.py
lines 125-142) is the stub `pass`; spec.md sections 4.1 and 7 define it as
sequential per-order processing in which order-level failures are
collected and the remaining orders still proceed. -/
def PortfolioManager.execute_recommendations (pm : PortfolioManager)
    (strategy : String) (recs : List TradingRecommendation)
    (prices : List (String × ℚ)) (tc : ℚ) :
    PortfolioManager × List TradeResult :=
  match recs with
  | [] => (pm, [])
  | r :: rest =>
      let s := pm.execStep strategy tc prices r
      let c := s.1.execute_recommendations strategy rest prices tc
      (c.1, s.2 :: c.2)

/-- Refresh one ledger entry from the price map; an entry whose ticker is
absent from the map is left unchanged (`DataUnavailable` exclusion,
spec.md section 7). -/
def updateEntry (prices : List (String × ℚ)) (kv : String × Position) :
    String × Position :=
  match alookup prices kv.1 with
  | none => kv
  | some x => (kv.1, refreshPosition kv.2 x)

/-- Modelled from the spec: the body of
`PortfolioManager.update_positions` (src/src/portfolio/manager.py lines
163-170) is the stub `pass`; spec.md section 4.1 defines it as the pure
refresh of `current_price`, `market_value` and `unrealized_pnl` for every
held position. -/
def PortfolioManager.update_positions (pm : PortfolioManager)
    (prices : List (String × ℚ)) : PortfolioManager :=
  { pm with positions := pm.positions.map (updateEntry prices) }

/-- Modelled from the spec: the body of
`PortfolioManager.add_strategy_allocation` (src/src/portfolio/manager.py
lines 115-123) is the stub `pass`; spec.md sections 3 and 8 require
`sum(strategy_allocations.values()) <= 1.0` at all times, so an update
whose resulting sum would exceed 1 is refused and leaves the map
unchanged. -/
def PortfolioManager.add_strategy_allocation (pm : PortfolioManager)
    (strategy : String) (alloc : ℚ) : PortfolioManager :=
  let newAllocs := aupdate pm.strategy_allocations strategy alloc
  if (newAllocs.map Prod.snd).sum ≤ 1 then
    { pm with strategy_allocations := newAllocs }
  else pm

/-- One mutating `PortfolioManager` operation, for stating state
invariants over arbitrary operation sequences. -/
inductive PMOp where
  | addAlloc (strategy : String) (alloc : ℚ)
  | execRecs (strategy : String) (recs : List TradingRecommendation)
      (prices : List (String × ℚ)) (tc : ℚ)
  | updatePrices (prices : List (String × ℚ))

/-- Apply one mutating operation to the portfolio state. -/
def PortfolioManager.applyOp (pm : PortfolioManager) : PMOp → PortfolioManager
  | PMOp.addAlloc s a => pm.add_strategy_allocation s a
  | PMOp.execRecs s recs prices tc =>
      (pm.execute_recommendations s recs prices tc).1
  | PMOp.updatePrices prices => pm.update_positions prices

/-- Run a sequence of mutating operations from a starting state. -/
def PortfolioManager.run (pm : PortfolioManager) (ops : List PMOp) :
    PortfolioManager :=
  ops.foldl PortfolioManager.applyOp pm

/-- The per-position invariant of spec.md sections 3 and 8:
`market_value == quantity * current_price` and
`unrealized_pnl == (current_price - entry_price) * quantity`. -/
def PosOK (p : Position) : Prop :=
  p.market_value = (p.quantity : ℚ) * p.current_price ∧
  p.unrealized_pnl = (p.current_price - p.entry_price) * (p.quantity : ℚ)

/-- Every position recorded in the ledger satisfies `PosOK`. -/
def LedgerOK (pm : PortfolioManager) : Prop :=
  ∀ kv ∈ pm.positions, PosOK kv.2

/-- Sum of the strategy allocation fractions. -/
def allocSum (pm : PortfolioManager) : ℚ :=
  (pm.strategy_allocations.map Prod.snd).sum

/-- Weekday of a day number, modelling Python `date.weekday()` (0=Monday)
for dates encoded as days since a Monday epoch. -/
def weekday (d : Nat) : Nat := d % 7

/-- Calendar week of a day number (weeks start on the Monday epoch). -/
def weekIndex (d : Nat) : Nat := d / 7

/-- Keys appearing in either of two allocation maps, without duplicates. -/
def driftKeys (cur last : List (String × ℚ)) : List String :=
  (cur.map Prod.fst ++ last.map Prod.fst).dedup

/-- Modelled from the spec: aggregate allocation drift, "sum of absolute
differences between current and last-rebalanced strategy allocations"
(spec.md section 4.3); a strategy missing from one side contributes its
full allocation. -/
def allocDrift (cur last : List (String × ℚ)) : ℚ :=
  ((driftKeys cur last).map (fun k => |agetD cur k 0 - agetD last k 0|)).sum

/-- `True` when no rebalance has happened yet in the calendar week of `d`. -/
def PortfolioRebalancer.noPriorRebalanceThisWeek (r : PortfolioRebalancer)
    (d : Nat) : Prop :=
  match r.last_rebalance_date with
  | none => True
  | some l => weekIndex l ≠ weekIndex d

instance (r : PortfolioRebalancer) (d : Nat) :
    Decidable (r.noPriorRebalanceThisWeek d) := by
  unfold PortfolioRebalancer.noPriorRebalanceThisWeek
  rcases r.last_rebalance_date with _ | l
  · exact inferInstanceAs (Decidable True)
  · exact inferInstanceAs (Decidable (weekIndex l ≠ weekIndex d))

/-- Aggregate drift of the rebalancer's current allocations from the
allocations recorded at the last rebalance. -/
def PortfolioRebalancer.drift (r : PortfolioRebalancer) : ℚ :=
  allocDrift r.current_allocations r.last_rebalanced_allocations

/-- A recommendation together with the strategy that produced it, as
gathered per ticker by conflict resolution. -/
structure Candidate where
  strategy : String
  recommendation : TradingRecommendation
deriving Repr, DecidableEq

/-- The strategy owning a ticker's open position, when one exists. -/
def ownerOf (positions : List (String × Position)) (ticker : String) :
    Option String :=
  (alookup positions ticker).map Position.strategy_name

/-- A candidate that is an explicit SELL from the position's owning
strategy (spec.md section 4.3, resolution rule 1). -/
def isOwnerSell (owner : Option String) (c : Candidate) : Prop :=
  c.recommendation.action = "SELL" ∧ some c.strategy = owner

instance (owner : Option String) (c : Candidate) :
    Decidable (isOwnerSell owner c) := by
  unfold isOwnerSell
  exact inferInstance

/-- The confidence/quantity tie-break order of resolution rules 2 and 3:
`a` strictly precedes `b` when `a` has higher confidence, or equal
confidence and a strictly lower requested quantity. -/
def numLex (a b : Candidate) : Prop :=
  b.recommendation.confidence < a.recommendation.confidence ∨
    (a.recommendation.confidence = b.recommendation.confidence ∧ a.recommendation.quantity < b.recommendation.quantity)

instance (a b : Candidate) : Decidable (numLex a b) := by
  unfold numLex
  exact inferInstance

/-- The full resolution preference (spec.md section 4.3): an owner SELL
beats everything else; among candidates with the same owner-SELL status,
the confidence/quantity order decides. -/
def prefOver (owner : Option String) (a b : Candidate) : Prop :=
  (isOwnerSell owner a ∧ ¬isOwnerSell owner b) ∨
    ((isOwnerSell owner a ↔ isOwnerSell owner b) ∧ numLex a b)

instance (owner : Option String) (a b : Candidate) :
    Decidable (prefOver owner a b) := by
  unfold prefOver
  exact inferInstance

/-- Select the winning candidate: a left fold that replaces the current
best only by a strictly preferred candidate, so the earliest maximal
candidate wins. -/
def pickWinner (owner : Option String) : List Candidate → Option Candidate
  | [] => none
  | c :: cs =>
      some (cs.foldl (fun best x => if prefOver owner x best then x else best) c)

/-- All candidates for one ticker: every BUY or SELL recommendation on it,
from every strategy. -/
def candidatesFor
    (strategy_recommendations : List (String × List TradingRecommendation))
    (ticker : String) : List Candidate :=
  (strategy_recommendations.map (fun sr =>
    (sr.2.filter (fun rec => decide (rec.ticker = ticker) &&
      (decide (rec.action = "BUY") || decide (rec.action = "SELL")))).map
      (fun rec => Candidate.mk sr.1 rec))).flatten

/-- Every ticker mentioned by any recommendation, without duplicates. -/
def recTickers
    (strategy_recommendations : List (String × List TradingRecommendation)) :
    List String :=
  ((strategy_recommendations.map (fun sr =>
    sr.2.map TradingRecommendation.ticker)).flatten).dedup

/-- Modelled from the spec: the body of
`PortfolioRebalancer.resolve_conflicting_recommendations`
(src/src/portfolio/rebalancer.py lines 91-106) is the stub `pass`;
spec.md section 4.3 defines the per-ticker resolution order: (1) an
explicit SELL from the position's owning strategy always wins; (2)
otherwise highest confidence wins; (3) ties break toward the lowest
requested quantity; losing recommendations are dropped. -/
def PortfolioRebalancer.resolve_conflicting_recommendations
    (_r : PortfolioRebalancer)
    (strategy_recommendations : List (String × List TradingRecommendation))
    (current_positions : List (String × Position)) :
    List (String × Candidate) :=
  (recTickers strategy_recommendations).filterMap (fun t =>
    (pickWinner (ownerOf current_positions t)
      (candidatesFor strategy_recommendations t)).map (fun w => (t, w)))

/-- Weight of one position: its market value as a fraction of the summed
market value of all positions (spec.md section 4.2, "vector of position
weights"). -/
def posWeight (ps : List (String × Position)) (p : Position) : ℚ :=
  p.market_value / totalMarketValue ps

/-- The quadratic form `wᵗ Σ w` of spec.md section 4.2, with the
covariance `Σ_ij = ρ_ij σ_i σ_j` derived from the correlation lookup and
the volatility map (a missing correlation pair is the lookup's default). -/
def quadForm (ps : List (String × Position)) (ρ : String → String → ℚ)
    (vols : String → ℚ) : ℚ :=
  (ps.map (fun i => (ps.map (fun j =>
    posWeight ps i.2 * posWeight ps j.2 * ρ i.1 j.1 *
      (vols i.1 * vols j.1))).sum)).sum

/-- Modelled from the spec: the body of
`RiskManager.calculate_portfolio_var` (src/src/portfolio/risk_manager.py
lines 169-188) is the stub `pass`; spec.md section 4.2 defines it as the
parametric VaR `z(confidence) * sqrt(wᵗ Σ w)` and fixes only
`z(0.95) = 1.645`, so the model is taken at the default confidence 0.95.
The correlation and volatility dictionaries are total lookup functions
(a missing entry is the function's value there). -/
noncomputable def RiskManager.calculate_portfolio_var (_rm : RiskManager)
    (positions : List (String × Position)) (ρ : String → String → ℚ)
    (volatilities : String → ℚ) : ℝ :=
  (1645 / 1000 : ℝ) * Real.sqrt ((quadForm positions ρ volatilities : ℚ) : ℝ)

/-- Two long positions of equal market value, the concrete portfolio of
the VaR monotonicity analysis. -/
def c6positions : List (String × Position) :=
  [("A", { ticker := "A", quantity := 1, entry_price := 100, entry_date := 0,
           current_price := 100, market_value := 100, unrealized_pnl := 0 }),
   ("B", { ticker := "B", quantity := 1, entry_price := 100, entry_date := 0,
           current_price := 100, market_value := 100, unrealized_pnl := 0 })]

/-- A valid correlation lookup with perfect negative correlation between
the two distinct tickers. -/
def c6rho (i j : String) : ℚ := if i = j then 1 else -1

/-- Volatility map before the increase: 0.1 for ticker A, 0.3 otherwise. -/
def c6vols0 (t : String) : ℚ := if t = "A" then 1 / 10 else 3 / 10

/-- Volatility map after increasing only ticker A's volatility to 0.2. -/
def c6vols1 (t : String) : ℚ := if t = "A" then 2 / 10 else 3 / 10

/-- A non-negative correlation lookup (identity matrix), under which VaR
monotonicity does hold. -/
def c6rhoPos (i j : String) : ℚ := if i = j then 1 else 0

/-- Scenario D recommendations: strategy alpha submits a BUY on X with
full confidence, strategy beta an explicit SELL on X with confidence 0. -/
def c4srs : List (String × List TradingRecommendation) :=
  [("alpha", [{ ticker := "X", action := "BUY", quantity := 10,
                confidence := 1 }]),
   ("beta", [{ ticker := "X", action := "SELL", quantity := 10,
               confidence := 0 }])]

/-- Scenario D ledger: ticker X is owned by strategy beta. -/
def c4positions : List (String × Position) :=
  [("X", { ticker := "X", quantity := 10, entry_price := 100, entry_date := 0,
           current_price := 100, market_value := 1000, unrealized_pnl := 0,
           strategy_name := "beta" })]

/-- The candidate that Scenario D resolution must select: beta's SELL. -/
def c4winner : Candidate :=
  { strategy := "beta",
    recommendation := { ticker := "X", action := "SELL", quantity := 10,
                        confidence := 0 } }

/-- Modelled from the spec: the body of
`PortfolioRebalancer.should_rebalance` (src/src/portfolio/rebalancer.py
lines 58-68) is the stub `pass`; spec.md section 4.3 defines it as true
when `date.weekday() == rebalance_day` and either no prior rebalance has
happened this week or the aggregate allocation drift since the last
rebalance is at least `min_rebalance_threshold`. -/
def PortfolioRebalancer.should_rebalance (r : PortfolioRebalancer)
    (current_date : Nat) : Bool :=
  decide (weekday current_date = r.rebalance_day) &&
    (decide (r.noPriorRebalanceThisWeek current_date) ||
      decide (r.min_rebalance_threshold ≤ r.drift))

end GPTComparison

namespace GPTComparison

/-- Claim C9: constructing `PortfolioManager(initial_capital, ...)` with any
arguments yields `current_cash == initial_capital`, empty positions map,
strategy allocations, trade history and performance history,
`last_rebalance_date` of `None`, and a rebalance frequency of 7 days. -/
theorem C9_portfolio_manager_init_state (ic : ℚ) (mps mtp : Nat) (cr : ℚ) :
    (PortfolioManager.init ic mps mtp cr).current_cash = ic ∧
    (PortfolioManager.init ic mps mtp cr).positions = [] ∧
    (PortfolioManager.init ic mps mtp cr).strategy_allocations = [] ∧
    (PortfolioManager.init ic mps mtp cr).trade_history = [] ∧
    (PortfolioManager.init ic mps mtp cr).performance_history = [] ∧
    (PortfolioManager.init ic mps mtp cr).last_rebalance_date = none ∧
    (PortfolioManager.init ic mps mtp cr).rebalance_frequency = 7 :=
  ⟨rfl, rfl, rfl, rfl, rfl, rfl, rfl⟩

/-- Claim C10: a `RiskManager` constructed with no arguments has
`max_portfolio_var = 0.02`, `max_position_size = 0.10`,
`max_sector_exposure = 0.25`, `max_correlation = 0.7`, a
`stop_loss_buffer = 0.01`, and empty `risk_alerts`,
`position_correlations` and `sector_exposures`. -/
theorem C10_risk_manager_init_state :
    RiskManager.init.max_portfolio_var = 2 / 100 ∧
    RiskManager.init.max_position_size = 10 / 100 ∧
    RiskManager.init.max_sector_exposure = 25 / 100 ∧
    RiskManager.init.max_correlation = 7 / 10 ∧
    RiskManager.init.stop_loss_buffer = 1 / 100 ∧
    RiskManager.init.risk_alerts = [] ∧
    RiskManager.init.position_correlations = [] ∧
    RiskManager.init.sector_exposures = [] :=
  ⟨rfl, rfl, rfl, rfl, rfl, rfl, rfl, rfl⟩

/-- Claim C5: for every long position `p` with a stop-loss price set and
every current price `x`, `RiskManager.should_trigger_stop_loss p x`
returns the boolean value of `x <= p.stop_loss`. -/
theorem C5_stop_loss_trigger (rm : RiskManager) (p : Position) (x sl : ℚ)
    (hsl : p.stop_loss = some sl) (_hlong : 0 < p.quantity) :
    rm.should_trigger_stop_loss p x = decide (x ≤ sl) := by
  unfold RiskManager.should_trigger_stop_loss
  rw [hsl]

/-- Witness for C5, spec.md Scenario C: a long position with entry price
100 and stop-loss 90 triggers at a price tick of 89. -/
theorem C5_stop_loss_trigger_witness :
    RiskManager.init.should_trigger_stop_loss
      { ticker := "X", quantity := 10, entry_price := 100, entry_date := 0,
        current_price := 89, market_value := 890, unrealized_pnl := -110,
        stop_loss := some 90 } 89 = decide ((89 : ℚ) ≤ 90) :=
  C5_stop_loss_trigger RiskManager.init _ 89 90 rfl (by decide)

/-- Claim C3: `should_rebalance d` is true exactly when `d`'s weekday is
the configured rebalance day and either no rebalance has happened yet that
week or the aggregate allocation drift since the last rebalance is at
least `min_rebalance_threshold`; in particular it is false on any
non-scheduled weekday. -/
theorem C3_should_rebalance_iff (r : PortfolioRebalancer) (d : Nat) :
    (r.should_rebalance d = true ↔
      (weekday d = r.rebalance_day ∧
        (r.noPriorRebalanceThisWeek d ∨
          r.min_rebalance_threshold ≤ r.drift))) ∧
    (weekday d ≠ r.rebalance_day → r.should_rebalance d = false) := by
  constructor
  · unfold PortfolioRebalancer.should_rebalance
    simp
  · intro hne
    unfold PortfolioRebalancer.should_rebalance
    simp [hne]

/-- Witness for C3, spec.md Scenario E: a freshly initialised rebalancer
(drift 0 < 5%) asked on a Wednesday (weekday 2, not the Friday rebalance
day 4) answers false. -/
theorem C3_should_rebalance_iff_witness :
    PortfolioRebalancer.init.should_rebalance 2 = false :=
  (C3_should_rebalance_iff PortfolioRebalancer.init 2).2 (by decide)

theorem posOK_refresh (p : Position) (x : ℚ) : PosOK (refreshPosition p x) :=
  ⟨rfl, rfl⟩

theorem posOK_updatePositionList {ps : List (String × Position)}
    {t : String} {dq : Int} {price : ℚ} {s : String} {kv : String × Position}
    (hkv : kv ∈ updatePositionList ps t dq price s) :
    PosOK kv.2 ∨ kv ∈ ps := by
  unfold updatePositionList at hkv
  split at hkv
  · rcases mem_aupdate hkv with heq | hin
    · subst heq
      exact Or.inl ⟨rfl, rfl⟩
    · exact Or.inr hin
  · dsimp only at hkv
    split at hkv
    · exact Or.inr (mem_aerase hkv)
    · split at hkv
      · rcases mem_aupdate hkv with heq | hin
        · subst heq
          exact Or.inl ⟨rfl, rfl⟩
        · exact Or.inr hin
      · rcases mem_aupdate hkv with heq | hin
        · subst heq
          exact Or.inl ⟨rfl, rfl⟩
        · exact Or.inr hin

theorem ledgerOK_update_position {pm : PortfolioManager} (t : String)
    (dq : Int) (price : ℚ) (s : String) (h : LedgerOK pm) :
    LedgerOK (pm._update_position t dq price s) := by
  intro kv hkv
  rcases posOK_updatePositionList hkv with hOK | hin
  · exact hOK
  · exact h kv hin

theorem ledgerOK_buy_order {pm : PortfolioManager} (t : String) (q : Int)
    (price tc : ℚ) (s : String) (h : LedgerOK pm) :
    LedgerOK (pm._execute_buy_order t q price tc s).1 := by
  intro kv hkv
  exact ledgerOK_update_position t q price s h kv hkv

theorem ledgerOK_sell_order {pm : PortfolioManager} (t : String) (q : Int)
    (price tc : ℚ) (s : String) (h : LedgerOK pm) :
    LedgerOK (pm._execute_sell_order t q price tc s).1 := by
  intro kv hkv
  exact ledgerOK_update_position t (-q) price s h kv hkv

theorem ledgerOK_execStep {pm : PortfolioManager} (strategy : String)
    (tc : ℚ) (prices : List (String × ℚ)) (rec : TradingRecommendation)
    (h : LedgerOK pm) : LedgerOK (pm.execStep strategy tc prices rec).1 := by
  unfold PortfolioManager.execStep
  split
  · split
    · exact h
    · split
      · exact h
      · split
        · exact ledgerOK_buy_order _ _ _ _ _ h
        · exact ledgerOK_sell_order _ _ _ _ _ h
  · exact h

theorem ledgerOK_execute_recommendations (strategy : String)
    (recs : List TradingRecommendation) (prices : List (String × ℚ))
    (tc : ℚ) :
    ∀ pm : PortfolioManager, LedgerOK pm →
      LedgerOK (pm.execute_recommendations strategy recs prices tc).1 := by
  induction recs with
  | nil => intro pm h; exact h
  | cons r rest ih =>
      intro pm h
      exact ih _ (ledgerOK_execStep strategy tc prices r h)

theorem ledgerOK_update_positions {pm : PortfolioManager}
    (prices : List (String × ℚ)) (h : LedgerOK pm) :
    LedgerOK (pm.update_positions prices) := by
  intro kv hkv
  rcases List.mem_map.mp hkv with ⟨kv0, hin, heq⟩
  subst heq
  unfold updateEntry
  split
  · exact h kv0 hin
  · exact posOK_refresh _ _

theorem ledgerOK_add_allocation {pm : PortfolioManager} (s : String)
    (a : ℚ) (h : LedgerOK pm) :
    LedgerOK (pm.add_strategy_allocation s a) := by
  unfold PortfolioManager.add_strategy_allocation
  dsimp only
  split
  · exact h
  · exact h

theorem ledgerOK_applyOp {pm : PortfolioManager} (op : PMOp)
    (h : LedgerOK pm) : LedgerOK (pm.applyOp op) := by
  cases op with
  | addAlloc s a => exact ledgerOK_add_allocation s a h
  | execRecs s recs prices tc =>
      exact ledgerOK_execute_recommendations s recs prices tc pm h
  | updatePrices prices => exact ledgerOK_update_positions prices h

theorem ledgerOK_run (ops : List PMOp) :
    ∀ pm : PortfolioManager, LedgerOK pm → LedgerOK (pm.run ops) := by
  induction ops with
  | nil => intro pm h; exact h
  | cons op rest ih => intro pm h; exact ih _ (ledgerOK_applyOp op h)

/-- Claim C1: starting from any constructed `PortfolioManager` and after
any sequence of mutating operations (`execute_recommendations` with its
buy/sell order execution, `update_positions`, allocation updates), every
`Position` in the ledger satisfies
`market_value == quantity * current_price` and
`unrealized_pnl == (current_price - entry_price) * quantity`. -/
theorem C1_position_invariant (ic : ℚ) (mps mtp : Nat) (cr : ℚ)
    (ops : List PMOp) :
    LedgerOK ((PortfolioManager.init ic mps mtp cr).run ops) := by
  apply ledgerOK_run
  intro kv hkv
  simp [PortfolioManager.init] at hkv

theorem allocations_update_position (pm : PortfolioManager) (t : String)
    (dq : Int) (price : ℚ) (s : String) :
    (pm._update_position t dq price s).strategy_allocations =
      pm.strategy_allocations := rfl

theorem allocations_execStep (pm : PortfolioManager) (strategy : String)
    (tc : ℚ) (prices : List (String × ℚ)) (rec : TradingRecommendation) :
    (pm.execStep strategy tc prices rec).1.strategy_allocations =
      pm.strategy_allocations := by
  unfold PortfolioManager.execStep
  split
  · split
    · rfl
    · split
      · rfl
      · split
        · rfl
        · rfl
  · rfl

theorem allocations_execute_recommendations (strategy : String)
    (recs : List TradingRecommendation) (prices : List (String × ℚ))
    (tc : ℚ) :
    ∀ pm : PortfolioManager,
      (pm.execute_recommendations strategy recs prices tc).1.strategy_allocations =
        pm.strategy_allocations := by
  induction recs with
  | nil => intro pm; rfl
  | cons r rest ih =>
      intro pm
      rw [show (pm.execute_recommendations strategy (r :: rest) prices tc).1 =
            ((pm.execStep strategy tc prices r).1.execute_recommendations
              strategy rest prices tc).1 from rfl]
      rw [ih, allocations_execStep]

theorem allocSum_applyOp {pm : PortfolioManager} (op : PMOp)
    (h : allocSum pm ≤ 1) : allocSum (pm.applyOp op) ≤ 1 := by
  cases op with
  | addAlloc s a =>
      unfold PortfolioManager.applyOp PortfolioManager.add_strategy_allocation
      dsimp only
      split
      · next hle => exact hle
      · exact h
  | execRecs s recs prices tc =>
      unfold allocSum
      rw [show (pm.applyOp (PMOp.execRecs s recs prices tc)) =
            (pm.execute_recommendations s recs prices tc).1 from rfl]
      rw [allocations_execute_recommendations]
      exact h
  | updatePrices prices => exact h

theorem allocSum_run (ops : List PMOp) :
    ∀ pm : PortfolioManager, allocSum pm ≤ 1 → allocSum (pm.run ops) ≤ 1 := by
  induction ops with
  | nil => intro pm h; exact h
  | cons op rest ih => intro pm h; exact ih _ (allocSum_applyOp op h)

/-- Claim C7: after construction and after every sequence of
`PortfolioManager` operations (including `add_strategy_allocation`), the
sum of the values of the `strategy_allocations` map is at most 1. -/
theorem C7_allocations_sum_le_one (ic : ℚ) (mps mtp : Nat) (cr : ℚ)
    (ops : List PMOp) :
    allocSum ((PortfolioManager.init ic mps mtp cr).run ops) ≤ 1 := by
  apply allocSum_run
  unfold allocSum PortfolioManager.init
  norm_num

theorem updateEntry_idem (prices : List (String × ℚ))
    (kv : String × Position) :
    updateEntry prices (updateEntry prices kv) = updateEntry prices kv := by
  rcases halook : alookup prices kv.1 with _ | x
  · have h1 : updateEntry prices kv = kv := by
      unfold updateEntry
      rw [halook]
    rw [h1]
    exact h1
  · have h1 : updateEntry prices kv = (kv.1, refreshPosition kv.2 x) := by
      unfold updateEntry
      rw [halook]
    rw [h1]
    unfold updateEntry
    dsimp only
    rw [halook]
    simp [refreshPosition]

/-- Claim C8: `update_positions` is idempotent — applying it twice with
the same price map yields a ledger state identical to applying it once. -/
theorem C8_update_positions_idempotent (pm : PortfolioManager)
    (prices : List (String × ℚ)) :
    (pm.update_positions prices).update_positions prices =
      pm.update_positions prices := by
  unfold PortfolioManager.update_positions
  congr 1
  rw [List.map_map]
  apply List.map_congr_left
  intro kv _
  exact updateEntry_idem prices kv

/-- Claim C2: inside `execute_recommendations`, a BUY whose cost
`quantity*price` plus the estimated transaction cost exceeds the available
cash (the cash-reserve fraction stays unspent) fails with
`InsufficientCapital` and leaves the manager state unchanged; a SELL whose
quantity exceeds the shares held fails with `NoSuchPosition` and leaves
the state unchanged; and processing of a call is sequential per order, so
the remaining orders in the same call still proceed from that unchanged
state. -/
theorem C2_order_level_errors :
    (∀ (pm : PortfolioManager) (strategy : String) (tc : ℚ)
        (prices : List (String × ℚ)) (r : TradingRecommendation) (px : ℚ),
      r.action = "BUY" → alookup prices r.ticker = some px →
      pm.available_cash <
          (r.quantity : ℚ) * px + tc * ((r.quantity : ℚ) * px) →
      pm.execStep strategy tc prices r =
        (pm, TradeResult.failed r.ticker TradeError.insufficientCapital)) ∧
    (∀ (pm : PortfolioManager) (strategy : String) (tc : ℚ)
        (prices : List (String × ℚ)) (r : TradingRecommendation) (px : ℚ),
      r.action = "SELL" → alookup prices r.ticker = some px →
      pm.heldQuantity r.ticker < r.quantity →
      pm.execStep strategy tc prices r =
        (pm, TradeResult.failed r.ticker TradeError.noSuchPosition)) ∧
    (∀ (pm : PortfolioManager) (strategy : String) (tc : ℚ)
        (prices : List (String × ℚ)) (r : TradingRecommendation)
        (rest : List TradingRecommendation),
      pm.execute_recommendations strategy (r :: rest) prices tc =
        (((pm.execStep strategy tc prices r).1.execute_recommendations
            strategy rest prices tc).1,
         (pm.execStep strategy tc prices r).2 ::
           ((pm.execStep strategy tc prices r).1.execute_recommendations
             strategy rest prices tc).2)) := by
  refine ⟨?_, ?_, ?_⟩
  · intro pm strategy tc prices r px hact hlook hcash
    unfold PortfolioManager.execStep PortfolioManager._validate_trade
    rw [hact, hlook]
    simp [hcash]
  · intro pm strategy tc prices r px hact hlook hheld
    unfold PortfolioManager.execStep PortfolioManager._validate_trade
    rw [hact, hlook]
    simp [hheld]
  · intro pm strategy tc prices r rest
    rfl

theorem numLex_trans {a b c : Candidate} (h1 : numLex a b)
    (h2 : numLex b c) : numLex a c := by
  rcases h1 with h1 | ⟨h1e, h1q⟩ <;> rcases h2 with h2 | ⟨h2e, h2q⟩
  · exact Or.inl (lt_trans h2 h1)
  · exact Or.inl (by rw [← h2e]; exact h1)
  · exact Or.inl (by rw [h1e]; exact h2)
  · exact Or.inr ⟨h1e.trans h2e, lt_trans h1q h2q⟩

theorem numLex_irrefl (a : Candidate) : ¬numLex a a := by
  rintro (h | ⟨-, h⟩)
  · exact lt_irrefl _ h
  · exact lt_irrefl _ h

theorem not_numLex_trans {a b c : Candidate} (h1 : ¬numLex a b)
    (h2 : ¬numLex b c) : ¬numLex a c := by
  unfold numLex at h1 h2 ⊢
  push_neg at h1 h2
  rintro (h | ⟨he, hq⟩)
  · exact absurd (h1.1.trans h2.1) (not_le.mpr h)
  · have hab : a.recommendation.confidence = b.recommendation.confidence :=
      le_antisymm h1.1 (h2.1.trans he.ge)
    have hbc : b.recommendation.confidence = c.recommendation.confidence :=
      hab ▸ he
    have hq1 := h1.2 hab
    have hq2 := h2.2 hbc
    omega

theorem prefOver_trans {o : Option String} {a b c : Candidate}
    (h1 : prefOver o a b) (h2 : prefOver o b c) : prefOver o a c := by
  rcases h1 with ⟨ha, hnb⟩ | ⟨hiff1, hn1⟩
  · rcases h2 with ⟨hb, _⟩ | ⟨hiff2, _⟩
    · exact absurd hb hnb
    · exact Or.inl ⟨ha, fun hc => hnb (hiff2.mpr hc)⟩
  · rcases h2 with ⟨hb, hnc⟩ | ⟨hiff2, hn2⟩
    · exact Or.inl ⟨hiff1.mpr hb, hnc⟩
    · exact Or.inr ⟨hiff1.trans hiff2, numLex_trans hn1 hn2⟩

theorem prefOver_irrefl (o : Option String) (a : Candidate) :
    ¬prefOver o a a := by
  rintro (⟨h, hn⟩ | ⟨-, hn⟩)
  · exact hn h
  · exact numLex_irrefl a hn

theorem not_prefOver_trans {o : Option String} {a b c : Candidate}
    (h1 : ¬prefOver o a b) (h2 : ¬prefOver o b c) : ¬prefOver o a c := by
  rintro (⟨ha, hnc⟩ | ⟨hiff, hnum⟩)
  · by_cases hb : isOwnerSell o b
    · exact h2 (Or.inl ⟨hb, hnc⟩)
    · exact h1 (Or.inl ⟨ha, hb⟩)
  · by_cases ha : isOwnerSell o a
    · have hc : isOwnerSell o c := hiff.mp ha
      by_cases hb : isOwnerSell o b
      · have hn1 : ¬numLex a b := fun hn => h1 (Or.inr ⟨iff_of_true ha hb, hn⟩)
        have hn2 : ¬numLex b c := fun hn => h2 (Or.inr ⟨iff_of_true hb hc, hn⟩)
        exact not_numLex_trans hn1 hn2 hnum
      · exact h1 (Or.inl ⟨ha, hb⟩)
    · have hc : ¬isOwnerSell o c := fun h => ha (hiff.mpr h)
      by_cases hb : isOwnerSell o b
      · exact h2 (Or.inl ⟨hb, hc⟩)
      · have hn1 : ¬numLex a b := fun hn =>
          h1 (Or.inr ⟨iff_of_false ha hb, hn⟩)
        have hn2 : ¬numLex b c := fun hn =>
          h2 (Or.inr ⟨iff_of_false hb hc, hn⟩)
        exact not_numLex_trans hn1 hn2 hnum

theorem foldl_pick_spec (o : Option String) :
    ∀ (cs : List Candidate) (b w : Candidate),
      cs.foldl (fun best x => if prefOver o x best then x else best) b = w →
      (w = b ∨ w ∈ cs) ∧ ¬prefOver o b w ∧ ∀ c ∈ cs, ¬prefOver o c w := by
  intro cs
  induction cs with
  | nil =>
      intro b w h
      simp only [List.foldl_nil] at h
      subst h
      exact ⟨Or.inl rfl, prefOver_irrefl o _, by simp⟩
  | cons x xs ih =>
      intro b w h
      simp only [List.foldl_cons] at h
      by_cases hpx : prefOver o x b
      · rw [if_pos hpx] at h
        rcases ih x w h with ⟨hmem, hnx, hall⟩
        refine ⟨?_, ?_, ?_⟩
        · rcases hmem with rfl | hm
          · exact Or.inr (List.mem_cons_self _ _)
          · exact Or.inr (List.mem_cons_of_mem _ hm)
        · intro hbw
          exact hnx (prefOver_trans hpx hbw)
        · intro c hc
          rcases List.mem_cons.mp hc with rfl | hc'
          · exact hnx
          · exact hall c hc'
      · rw [if_neg hpx] at h
        rcases ih b w h with ⟨hmem, hnb, hall⟩
        refine ⟨?_, hnb, ?_⟩
        · rcases hmem with rfl | hm
          · exact Or.inl rfl
          · exact Or.inr (List.mem_cons_of_mem _ hm)
        · intro c hc
          rcases List.mem_cons.mp hc with rfl | hc'
          · exact not_prefOver_trans hpx hnb
          · exact hall c hc'

theorem pickWinner_spec {o : Option String} {cands : List Candidate}
    {w : Candidate} (h : pickWinner o cands = some w) :
    w ∈ cands ∧ ∀ c ∈ cands, ¬prefOver o c w := by
  cases cands with
  | nil => simp [pickWinner] at h
  | cons c cs =>
      rw [pickWinner] at h
      injection h with h
      rcases foldl_pick_spec o cs c w h with ⟨hmem, hnc, hall⟩
      refine ⟨?_, ?_⟩
      · rcases hmem with rfl | hm
        · exact List.mem_cons_self _ _
        · exact List.mem_cons_of_mem _ hm
      · intro d hd
        rcases List.mem_cons.mp hd with rfl | hd'
        · exact hnc
        · exact hall d hd'

/-- Claim C4: every winner chosen by
`resolve_conflicting_recommendations` for a ticker is one of that ticker's
candidate recommendations (dropped, not merged); when any candidate is an
explicit SELL from the ticker's owning strategy the winner is such a SELL
regardless of confidence; otherwise the winner has maximal confidence,
with confidence ties broken toward the lowest requested quantity. -/
theorem C4_conflict_resolution (r : PortfolioRebalancer)
    (srs : List (String × List TradingRecommendation))
    (ps : List (String × Position)) (t : String) (w : Candidate)
    (hmem : (t, w) ∈ r.resolve_conflicting_recommendations srs ps) :
    w ∈ candidatesFor srs t ∧
    ((∃ c ∈ candidatesFor srs t, isOwnerSell (ownerOf ps t) c) →
      isOwnerSell (ownerOf ps t) w) ∧
    ((¬∃ c ∈ candidatesFor srs t, isOwnerSell (ownerOf ps t) c) →
      ∀ c ∈ candidatesFor srs t,
        c.recommendation.confidence ≤ w.recommendation.confidence ∧
          (c.recommendation.confidence = w.recommendation.confidence →
            w.recommendation.quantity ≤ c.recommendation.quantity)) := by
  unfold PortfolioRebalancer.resolve_conflicting_recommendations at hmem
  rcases List.mem_filterMap.mp hmem with ⟨u, _, hequ⟩
  rcases Option.map_eq_some'.mp hequ with ⟨w', hw', heq2⟩
  injection heq2 with h1 h2
  rw [h1] at hw'
  rw [h2] at hw'
  rcases pickWinner_spec hw' with ⟨hin, hmax⟩
  refine ⟨hin, ?_, ?_⟩
  · rintro ⟨c, hc, hcos⟩
    by_contra hnw
    exact hmax c hc (Or.inl ⟨hcos, hnw⟩)
  · intro hno c hc
    have hnp := hmax c hc
    have hnc : ¬isOwnerSell (ownerOf ps t) c := fun h => hno ⟨c, hc, h⟩
    have hnw : ¬isOwnerSell (ownerOf ps t) w := fun h => hno ⟨w, hin, h⟩
    have hnn : ¬numLex c w := fun hn =>
      hnp (Or.inr ⟨iff_of_false hnc hnw, hn⟩)
    unfold numLex at hnn
    push_neg at hnn
    exact hnn

/-- Witness for C4, spec.md Scenario D: with a full-confidence BUY from
alpha and a zero-confidence SELL from beta on ticker X owned by beta, the
resolved winner is a candidate and the owner-SELL rule makes it beta's
SELL. -/
theorem C4_conflict_resolution_witness :
    c4winner ∈ candidatesFor c4srs "X" ∧
    isOwnerSell (ownerOf c4positions "X") c4winner := by
  have h := C4_conflict_resolution PortfolioRebalancer.init c4srs c4positions
    "X" c4winner (by decide)
  exact ⟨h.1, h.2.1 ⟨c4winner, h.1, by decide⟩⟩

/-- Witness for C2: from a 1000-cash portfolio with a 5% reserve, a BUY of
100 shares at 50 (cost 5000 > 950 available) is dropped with
`InsufficientCapital` and the state is returned unchanged, and a SELL of 5
shares of an unheld ticker is dropped with `NoSuchPosition`. -/
theorem C2_order_level_errors_witness :
    (PortfolioManager.init 1000 15 50 (5 / 100)).execStep "s" 0 [("A", 50)]
        { ticker := "A", action := "BUY", quantity := 100, confidence := 1 } =
      (PortfolioManager.init 1000 15 50 (5 / 100),
        TradeResult.failed "A" TradeError.insufficientCapital) ∧
    (PortfolioManager.init 1000 15 50 (5 / 100)).execStep "s" 0 [("B", 10)]
        { ticker := "B", action := "SELL", quantity := 5, confidence := 1 } =
      (PortfolioManager.init 1000 15 50 (5 / 100),
        TradeResult.failed "B" TradeError.noSuchPosition) :=
  ⟨C2_order_level_errors.1 _ "s" 0 _ _ 50 rfl (by decide)
      (by norm_num [PortfolioManager.available_cash,
        PortfolioManager.total_value, PortfolioManager.init,
        totalMarketValue]),
   C2_order_level_errors.2.1 _ "s" 0 _ _ 10 rfl (by decide)
      (by norm_num [PortfolioManager.heldQuantity, PortfolioManager.init,
        alookup])⟩

theorem totalMarketValue_nonneg {ps : List (String × Position)}
    (hw : ∀ kv ∈ ps, 0 ≤ kv.2.market_value) : 0 ≤ totalMarketValue ps := by
  unfold totalMarketValue
  apply List.sum_nonneg
  intro x hx
  rcases List.mem_map.mp hx with ⟨kv, hkv, rfl⟩
  exact hw kv hkv

theorem posWeight_nonneg {ps : List (String × Position)} {p : Position}
    (hw : ∀ kv ∈ ps, 0 ≤ kv.2.market_value) (hp : 0 ≤ p.market_value) :
    0 ≤ posWeight ps p :=
  div_nonneg hp (totalMarketValue_nonneg hw)

theorem quadForm_mono {ps : List (String × Position)}
    {ρ : String → String → ℚ} {vols vols' : String → ℚ}
    (hρ : ∀ i j, 0 ≤ ρ i j) (hw : ∀ kv ∈ ps, 0 ≤ kv.2.market_value)
    (hv : ∀ t, 0 ≤ vols t) (hle : ∀ t, vols t ≤ vols' t) :
    quadForm ps ρ vols ≤ quadForm ps ρ vols' := by
  unfold quadForm
  apply List.sum_le_sum
  intro i hi
  apply List.sum_le_sum
  intro j hj
  have hA : 0 ≤ posWeight ps i.2 * posWeight ps j.2 * ρ i.1 j.1 :=
    mul_nonneg
      (mul_nonneg (posWeight_nonneg hw (hw i hi))
        (posWeight_nonneg hw (hw j hj))) (hρ _ _)
  apply mul_le_mul_of_nonneg_left _ hA
  exact mul_le_mul (hle i.1) (hle j.1) (hv j.1) ((hv i.1).trans (hle i.1))

/-- Amended claim C6: `calculate_portfolio_var` is always non-negative;
and it is monotone non-decreasing in any single position's volatility
provided the correlation entries are non-negative (negative correlation
breaks monotonicity, see the counterexample), all positions are long
(non-negative market value) and volatilities are non-negative. -/
theorem C6_var_nonneg_and_monotone :
    (∀ (rm : RiskManager) (ps : List (String × Position))
        (ρ : String → String → ℚ) (vols : String → ℚ),
      0 ≤ rm.calculate_portfolio_var ps ρ vols) ∧
    (∀ (rm : RiskManager) (ps : List (String × Position))
        (ρ : String → String → ℚ) (vols vols' : String → ℚ) (k : String),
      (∀ i j, 0 ≤ ρ i j) → (∀ kv ∈ ps, 0 ≤ kv.2.market_value) →
      (∀ t, 0 ≤ vols t) → vols k ≤ vols' k →
      (∀ t, t ≠ k → vols' t = vols t) →
      rm.calculate_portfolio_var ps ρ vols ≤
        rm.calculate_portfolio_var ps ρ vols') := by
  constructor
  · intro rm ps ρ vols
    unfold RiskManager.calculate_portfolio_var
    exact mul_nonneg (by norm_num) (Real.sqrt_nonneg _)
  · intro rm ps ρ vols vols' k hρ hw hv hk hch
    have hle : ∀ t, vols t ≤ vols' t := by
      intro t
      by_cases ht : t = k
      · subst ht
        exact hk
      · rw [hch t ht]
    unfold RiskManager.calculate_portfolio_var
    apply mul_le_mul_of_nonneg_left _ (by norm_num : (0 : ℝ) ≤ 1645 / 1000)
    apply Real.sqrt_le_sqrt
    exact_mod_cast quadForm_mono hρ hw hv hle

/-- Witness for the amended C6: with the identity correlation, two long
positions and volatilities 0.1/0.3, raising ticker A's volatility to 0.2
does not decrease the VaR. -/
theorem C6_var_nonneg_and_monotone_witness :
    RiskManager.init.calculate_portfolio_var c6positions c6rhoPos c6vols0 ≤
      RiskManager.init.calculate_portfolio_var c6positions c6rhoPos
        c6vols1 := by
  apply C6_var_nonneg_and_monotone.2 RiskManager.init c6positions c6rhoPos
    c6vols0 c6vols1 "A"
  · intro i j
    unfold c6rhoPos
    split <;> norm_num
  · intro kv hkv
    simp only [c6positions, List.mem_cons, List.not_mem_nil, or_false]
      at hkv
    rcases hkv with rfl | rfl <;> norm_num
  · intro t
    unfold c6vols0
    split <;> norm_num
  · norm_num [c6vols0, c6vols1]
  · intro t ht
    unfold c6vols0 c6vols1
    rw [if_neg ht, if_neg ht]

/-- The monotonicity half of claim C6 as stated is false: with perfectly
negatively correlated equal-weight positions, increasing only ticker A's
volatility from 0.1 to 0.2 strictly decreases the computed VaR. -/
theorem C6_var_monotonicity_counterexample :
    c6vols0 "A" ≤ c6vols1 "A" ∧
    (∀ t, t ≠ "A" → c6vols1 t = c6vols0 t) ∧
    RiskManager.init.calculate_portfolio_var c6positions c6rho c6vols1 <
      RiskManager.init.calculate_portfolio_var c6positions c6rho c6vols0 := by
  refine ⟨by norm_num [c6vols0, c6vols1], ?_, ?_⟩
  · intro t ht
    unfold c6vols0 c6vols1
    rw [if_neg ht, if_neg ht]
  · have hAB : ("A" : String) ≠ "B" := by decide
    have hBA : ("B" : String) ≠ "A" := by decide
    have h0 : quadForm c6positions c6rho c6vols0 = 1 / 100 := by
      norm_num [quadForm, posWeight, totalMarketValue, c6positions, c6rho,
        c6vols0, hAB, hBA]
    have h1 : quadForm c6positions c6rho c6vols1 = 1 / 400 := by
      norm_num [quadForm, posWeight, totalMarketValue, c6positions, c6rho,
        c6vols1, hAB, hBA]
    unfold RiskManager.calculate_portfolio_var
    rw [h0, h1]
    have hs : Real.sqrt ((1 / 400 : ℚ) : ℝ) < Real.sqrt ((1 / 100 : ℚ) : ℝ) := by
      apply Real.sqrt_lt_sqrt
      · push_cast
        norm_num
      · push_cast
        norm_num
    exact mul_lt_mul_of_pos_left hs (by norm_num : (0 : ℝ) < 1645 / 1000)

end GPTComparison
